import Mathlib

/-
Verification of the MindCare AI triage core.

The repository snapshot contains the PostgreSQL schema (`database/schema.sql`),
the React front-end, and the specification; the FastAPI backend modules
(`risk_scorer.py`, `matching_service.py`, `dropout_predictor.py`, alert
routers) are not part of the snapshot.  Definitions for those components are
therefore modelled from the specification, as marked on each definition.
The dashboard utility `parseArray` is embedded directly from the source
(`AdminDashboard.jsx` / `TherapistDashboard.jsx`).
-/

namespace MindCare

/-- Risk levels, mirroring the schema ENUM `risk_level`
(low, moderate, high, critical). -/
inductive RiskLevel where
  | low
  | moderate
  | high
  | critical
deriving DecidableEq

/-- Error taxonomy of the core (spec section 7). -/
inductive CoreError where
  | validationError
  | capacityExceeded
  | invalidTransition
  | invariantViolation
deriving DecidableEq

/-- Clamp a rational into the interval `[lo, hi]`. -/
def clampQ (lo hi x : ℚ) : ℚ := max lo (min hi x)

/-- Turn a list of optional answers into a list of answers, or `none`
when at least one answer is absent. -/
def seqOpt : List (Option ℤ) → Option (List ℤ)
  | [] => some []
  | none :: _ => none
  | some v :: rest => (seqOpt rest).map (fun l => v :: l)

/-- Result of the ScoreCalculator: the two questionnaire subtotals and the
self-harm flag extracted from the designated depression item. -/
structure ScoreResult where
  depression_subtotal : ℤ
  anxiety_subtotal : ℤ
  self_harm_flag : Bool
deriving DecidableEq

/-- Modelled from the spec: ScoreCalculator (spec 4.1); the backend module
`risk_scorer.py` is not in the snapshot.  Takes the 9 depression answers and
the 7 anxiety answers, each possibly absent; absent or out-of-range answers
are rejected with `ValidationError` before any scoring occurs.  The
self-harm flag comes from the ninth depression item (value ≥ 1 ⇒ flagged). -/
def scoreAnswers (dep anx : List (Option ℤ)) : Except CoreError ScoreResult :=
  if dep.length = 9 ∧ anx.length = 7 then
    match seqOpt dep with
    | none => .error .validationError
    | some d =>
      match seqOpt anx with
      | none => .error .validationError
      | some a =>
        if (d.all fun v => decide (0 ≤ v ∧ v ≤ 3)) &&
            (a.all fun v => decide (0 ≤ v ∧ v ≤ 3)) then
          .ok ⟨d.sum, a.sum, decide (1 ≤ d.getD 8 0)⟩
        else .error .validationError
  else .error .validationError

/-- Modelled from the spec: sentiment component of the RiskClassifier
(spec 4.2), mapping a sentiment in `[-1, 1]` to `[0, 100]`. -/
def sentimentComponent (s : ℚ) : ℚ := (1 - s) / 2 * 100

/-- Modelled from the spec: crisis component of the RiskClassifier
(spec 4.2): 100 if a crisis keyword matched or the self-harm flag is set,
else 0. -/
def crisisComponent (keywordHit selfHarm : Bool) : ℚ :=
  if keywordHit || selfHarm then 100 else 0

/-- The characters of a string, lowercased. -/
def lowerChars (s : String) : List Char := s.data.map Char.toLower

/-- Whether the first character list starts the second. -/
def leadsChars : List Char → List Char → Bool
  | [], _ => true
  | _ :: _, [] => false
  | a :: as, b :: bs => a == b && leadsChars as bs

/-- Whether the first character list occurs contiguously in the second. -/
def occursIn (pat : List Char) : List Char → Bool
  | [] => pat.isEmpty
  | b :: bs => leadsChars pat (b :: bs) || occursIn pat bs

/-- Modelled from the spec: case-insensitive substring scan of free text
against the configured crisis-keyword lexicon (spec 4.2). -/
def detectCrisis (lexicon : List String) (text : String) : Bool :=
  lexicon.any fun kw => occursIn (lowerChars kw) (lowerChars text)

/-- Modelled from the spec: normalization of a questionnaire subtotal to
`[0, 100]` (spec 4.2 step 1): divide by the maximum and scale by 100. -/
def normalizeSub (v : ℤ) (maxv : ℚ) : ℚ := (v : ℚ) / maxv * 100

/-- Modelled from the spec: weighted blend and final clamp of the
RiskClassifier (spec 4.2 steps 2-3). -/
def blendOverall (depN anxN sentC crisisC : ℚ) : ℚ :=
  clampQ 0 100 (0.4 * depN + 0.3 * anxN + 0.15 * sentC + 0.15 * crisisC)

/-- Modelled from the spec: the overall risk score as a function of the two
subtotals, the sentiment score, and the crisis flags (spec 4.2 steps 1-3). -/
def overallFromInputs (depSub anxSub : ℤ) (sent : ℚ) (kw sh : Bool) : ℚ :=
  blendOverall (normalizeSub depSub 27) (normalizeSub anxSub 21)
    (sentimentComponent sent) (crisisComponent kw sh)

/-- Modelled from the spec: threshold classification of the blended score
(spec 4.2 step 4): `critical` if overall ≥ 80 or the self-harm flag is set,
`high` if overall ≥ 60, `moderate` if overall ≥ 40, else `low`. -/
def classifyRisk (overall : ℚ) (selfHarm : Bool) : RiskLevel :=
  if 80 ≤ overall ∨ selfHarm = true then .critical
  else if 60 ≤ overall then .high
  else if 40 ≤ overall then .moderate
  else .low

/-- Modelled from the spec: risk level to recommended urgency (spec 4.2
step 5). -/
def urgencyFor : RiskLevel → String
  | .critical => "immediate (within hours)"
  | .high => "within 48 hours"
  | .moderate => "standard scheduling"
  | .low => "routine"

/-- A risk assessment snapshot, mirroring the `risk_assessments` schema
columns used by the core. -/
structure RiskAssessment where
  depression_subtotal : ℤ
  anxiety_subtotal : ℤ
  sentiment_component : ℚ
  crisis_keywords_hit : Bool
  self_harm_risk : Bool
  overall_risk_score : ℚ
  risk_level : RiskLevel
  recommended_urgency : String
deriving DecidableEq

/-- Modelled from the spec: sentiment validation (spec 4.2): a sentiment
outside `[-1, 1]` is a `ValidationError`; a null sentiment is treated as
neutral (component 50, the image of sentiment 0). -/
def checkSentiment : Option ℚ → Except CoreError ℚ
  | none => .ok 50
  | some s => if -1 ≤ s ∧ s ≤ 1 then .ok (sentimentComponent s) else .error .validationError

/-- Modelled from the spec: assembly of the immutable `RiskAssessment`
snapshot from the calculator output (spec 4.2). -/
def mkAssessment (sc : ScoreResult) (sentC : ℚ) (crisisHit : Bool) : RiskAssessment :=
  let overall := blendOverall (normalizeSub sc.depression_subtotal 27)
    (normalizeSub sc.anxiety_subtotal 21) sentC (crisisComponent crisisHit sc.self_harm_flag)
  ⟨sc.depression_subtotal, sc.anxiety_subtotal, sentC, crisisHit, sc.self_harm_flag,
    overall, classifyRisk overall sc.self_harm_flag,
    urgencyFor (classifyRisk overall sc.self_harm_flag)⟩

/-- Modelled from the spec: the intake-scoring pipeline
`score_intake(IntakeResponse) -> RiskAssessment` (spec sections 4.1, 4.2, 6):
score the answers, validate the sentiment, scan the free text for crisis
keywords, then build the assessment. -/
def score_intake (dep anx : List (Option ℤ)) (freeText : String)
    (sentiment : Option ℚ) (lexicon : List String) : Except CoreError RiskAssessment :=
  match scoreAnswers dep anx with
  | .error e => .error e
  | .ok sc =>
    match checkSentiment sentiment with
    | .error e => .error e
    | .ok sentC => .ok (mkAssessment sc sentC (detectCrisis lexicon freeText))

/-- Modelled from the spec: pointwise update of the per-therapist caseload
map held by the CapacityLedger (spec 4.3). -/
def updateLedger (led : ℕ → ℤ) (t : ℕ) (v : ℤ) : ℕ → ℤ :=
  fun u => if u = t then v else led u

/-- Modelled from the spec: `reserve(therapist_id)` of the CapacityLedger
(spec 4.3): fails with `CapacityExceeded` if the current caseload is at or
above the maximum, otherwise increments the counter. -/
def reserve (maxC led : ℕ → ℤ) (t : ℕ) : Except CoreError (ℕ → ℤ) :=
  if maxC t ≤ led t then .error .capacityExceeded
  else .ok (updateLedger led t (led t + 1))

/-- Modelled from the spec: `release(therapist_id)` of the CapacityLedger
(spec 4.3): fails with `InvariantViolation` if the current caseload is
already 0, otherwise decrements the counter. -/
def release (led : ℕ → ℤ) (t : ℕ) : Except CoreError (ℕ → ℤ) :=
  if led t = 0 then .error .invariantViolation
  else .ok (updateLedger led t (led t - 1))

/-- A call against the CapacityLedger. -/
inductive LedgerOp where
  | reserveOp (t : ℕ)
  | releaseOp (t : ℕ)
deriving DecidableEq

/-- Modelled from the spec: one ledger call; a failed call leaves the
counters unchanged (spec 4.3). -/
def ledgerStep (maxC led : ℕ → ℤ) : LedgerOp → (ℕ → ℤ)
  | .reserveOp t =>
    match reserve maxC led t with
    | .ok led2 => led2
    | .error _ => led
  | .releaseOp t =>
    match release led t with
    | .ok led2 => led2
    | .error _ => led

/-- Modelled from the spec: a finite sequence of reserve/release calls
against the CapacityLedger (spec 4.3). -/
def runLedger (maxC led : ℕ → ℤ) : List LedgerOp → (ℕ → ℤ)
  | [] => led
  | op :: ops => runLedger maxC (ledgerStep maxC led op) ops

/-- A therapist roster entry, mirroring the `therapists` schema columns the
matcher uses. -/
structure Therapist where
  id : ℕ
  specialties : List String
  languages : List String
  max_caseload : ℤ
  current_caseload : ℤ
  accepts_high_risk : Bool
  active : Bool
  success_rate : ℚ
deriving DecidableEq

/-- Remaining capacity, as in the `therapist_caseloads` view:
`max_caseload - current_caseload`. -/
def capacity_remaining (t : Therapist) : ℤ :=
  t.max_caseload - t.current_caseload

/-- Modelled from the spec: MatchRanker eligibility (spec 4.4): active,
remaining capacity strictly positive, and hard exclusion of therapists not
accepting high-risk cases when the patient risk is `critical`. -/
def eligibleFor (risk : RiskLevel) (t : Therapist) : Bool :=
  t.active && decide (0 < capacity_remaining t) &&
    !(decide (risk = RiskLevel.critical) && !t.accepts_high_risk)

/-- Modelled from the spec: specialty contribution (spec 4.4): +40 for any
overlap with the inferred needs, +10 per additional overlap, capped at 50. -/
def specialtyPoints (needs : List String) (t : Therapist) : ℚ :=
  let overlap := (t.specialties.filter fun s => needs.contains s).length
  if overlap = 0 then 0 else min 50 (40 + 10 * ((overlap : ℚ) - 1))

/-- Modelled from the spec: language contribution (spec 4.4): +20 on a
case-insensitive exact match against the language set of the therapist. -/
def languagePoints (prefLang : String) (t : Therapist) : ℚ :=
  if t.languages.any fun l => lowerChars l == lowerChars prefLang then 20 else 0

/-- Modelled from the spec: risk-acceptance contribution (spec 4.4): +15
when the risk level is high or critical and the therapist accepts
high-risk cases. -/
def riskPoints (risk : RiskLevel) (t : Therapist) : ℚ :=
  if (risk = .high ∨ risk = .critical) ∧ t.accepts_high_risk = true then 15 else 0

/-- Modelled from the spec: the 0-100 match score of a candidate (spec 4.4). -/
def matchScore (risk : RiskLevel) (needs : List String) (prefLang : String)
    (t : Therapist) : ℚ :=
  specialtyPoints needs t + languagePoints prefLang t + riskPoints risk t +
    t.success_rate / 100 * 15

/-- Modelled from the spec: ranking order (spec 4.4): higher score first,
ties broken by higher remaining capacity, then lower current caseload, then
therapist identifier. -/
def rankedNoLater (a b : Therapist × ℚ) : Bool :=
  if a.2 ≠ b.2 then decide (b.2 < a.2)
  else if capacity_remaining a.1 ≠ capacity_remaining b.1 then
    decide (capacity_remaining b.1 < capacity_remaining a.1)
  else if a.1.current_caseload ≠ b.1.current_caseload then
    decide (a.1.current_caseload < b.1.current_caseload)
  else decide (a.1.id ≤ b.1.id)

/-- Insertion into a ranked list, keeping earlier candidates first. -/
def insertRanked (x : Therapist × ℚ) : List (Therapist × ℚ) → List (Therapist × ℚ)
  | [] => [x]
  | y :: ys => if rankedNoLater x y then x :: y :: ys else y :: insertRanked x ys

/-- Sorting of the scored candidates by the ranking order. -/
def sortRanked : List (Therapist × ℚ) → List (Therapist × ℚ)
  | [] => []
  | x :: xs => insertRanked x (sortRanked xs)

/-- Modelled from the spec: `rank_therapists` (spec 4.4, 6): filter the
roster to eligible candidates, score each, sort by the ranking order and
return the top `topN`. -/
def rank_therapists (risk : RiskLevel) (needs : List String) (prefLang : String)
    (roster : List Therapist) (topN : ℕ) : List (Therapist × ℚ) :=
  (sortRanked ((roster.filter (eligibleFor risk)).map
    fun t => (t, matchScore risk needs prefLang t))).take topN

/-- An assignment row, mirroring the `assignments` schema columns the
invariant is about. -/
structure Assignment where
  patient_id : ℕ
  therapist_id : ℕ
  active : Bool
deriving DecidableEq

/-- Whether a patient currently holds an active assignment. -/
def hasActiveAssignment (s : List Assignment) (p : ℕ) : Bool :=
  s.any fun a => a.active && a.patient_id == p

/-- Modelled from the spec: `create_assignment` (spec sections 3, 6): a
patient may hold at most one active assignment, enforced in code and not
merely by the database constraint, so creation for a patient who already
holds one fails regardless of the targeted therapist. -/
def create_assignment (s : List Assignment) (p t : ℕ) : Except CoreError (List Assignment) :=
  if hasActiveAssignment s p then .error .invariantViolation
  else .ok (⟨p, t, true⟩ :: s)

/-- Modelled from the spec: ending the assignment of a patient (spec section 3:
active → ended, never deleted): the rows of that patient become inactive. -/
def end_assignment (s : List Assignment) (p : ℕ) : List Assignment :=
  s.map fun a => if a.patient_id == p then ⟨a.patient_id, a.therapist_id, false⟩ else a

/-- States of the assignment store reachable through the two lifecycle
operations, starting from the empty store. -/
inductive ReachableState : List Assignment → Prop where
  | init : ReachableState []
  | create (s s' : List Assignment) (p t : ℕ) :
      ReachableState s → create_assignment s p t = .ok s' → ReachableState s'
  | close (s : List Assignment) (p : ℕ) :
      ReachableState s → ReachableState (end_assignment s p)

/-- Number of active assignments a patient holds. -/
def activeCount (s : List Assignment) (p : ℕ) : ℕ :=
  (s.filter fun a => a.active && a.patient_id == p).length

/-- A dropout feature vector, mirroring the `dropout_predictions` schema
feature columns. -/
structure DropoutFeatures where
  sessions_attended : ℕ
  sessions_cancelled : ℕ
  sessions_no_show : ℕ
  avg_response_time_hours : ℚ
  sentiment_trend : ℚ
  days_since_last_session : ℕ
deriving DecidableEq

/-- Modelled from the spec: the versioned weight configuration of the
DropoutEstimator (spec 4.5), including the rate denominator epsilon. -/
structure DropoutWeights where
  base : ℚ
  w1 : ℚ
  w2 : ℚ
  w3 : ℚ
  w4 : ℚ
  w5 : ℚ
  eps : ℚ
  model_version : String
deriving DecidableEq

/-- A dropout prediction snapshot, mirroring the `dropout_predictions`
schema columns the estimator writes. -/
structure DropoutPrediction where
  dropout_probability : ℚ
  intervention_recommended : Bool
  model_version : String
deriving DecidableEq

/-- Modelled from the spec: `predict_dropout` (spec 4.5, 6); the backend
module `dropout_predictor.py` is not in the snapshot.  `log1pDays` is the
value `log1p(days_since_last_session)` computed by the host math library.
The linear-weighted value is clamped to `[0, 100]` and an intervention is
recommended exactly when the probability is at least 70. -/
def predict_dropout (w : DropoutWeights) (f : DropoutFeatures) (log1pDays : ℚ) :
    DropoutPrediction :=
  let total : ℚ := (f.sessions_attended : ℚ) + (f.sessions_cancelled : ℚ) +
    (f.sessions_no_show : ℚ) + w.eps
  let raw := w.base + w.w1 * ((f.sessions_no_show : ℚ) / total) +
    w.w2 * ((f.sessions_cancelled : ℚ) / total) + w.w3 * log1pDays -
    w.w4 * f.sentiment_trend - w.w5 * ((f.sessions_attended : ℚ) / total)
  let p := clampQ 0 100 raw
  ⟨p, decide (70 ≤ p), w.model_version⟩

/-- Lifecycle state of an alert, mirroring the `alerts` schema columns
`acknowledged` and `resolved`; an alert is open when both are false. -/
structure AlertState where
  acknowledged : Bool
  resolved : Bool
deriving DecidableEq

/-- Whether an alert is still in the `open` state. -/
def alertOpen (a : AlertState) : Bool := !a.acknowledged && !a.resolved

/-- Modelled from the spec: `acknowledge(alert_id, by)` (spec 4.6): valid
only from `open`; fails with `InvalidTransition` if the alert is already
acknowledged or resolved. -/
def acknowledge_alert (a : AlertState) : Except CoreError AlertState :=
  if a.acknowledged || a.resolved then .error .invalidTransition
  else .ok ⟨true, a.resolved⟩

/-- Modelled from the spec: `resolve(alert_id, notes)` (spec 4.6): valid
from `open` or `acknowledged`; fails with `InvalidTransition` once
resolved. -/
def resolve_alert (a : AlertState) : Except CoreError AlertState :=
  if a.resolved then .error .invalidTransition
  else .ok ⟨a.acknowledged, true⟩

/-- A loosely-typed value reaching the dashboard boundary: a real JS array
of strings, a string (Postgres array literal), or anything else (null,
undefined, numbers, objects). -/
inductive JSVal where
  | arr (xs : List String)
  | str (s : String)
  | other
deriving DecidableEq

/-- The effect of the regex replace in the source `parseArray`: remove one
leading opening brace and one trailing closing brace when present. -/
def stripBraces (s : String) : String :=
  let s1 := if s.startsWith "\x7b" then s.drop 1 else s
  if s1.endsWith "\x7d" then s1.dropRight 1 else s1

/-- The dashboard boundary normalizer `parseArray` from
`AdminDashboard.jsx` and `TherapistDashboard.jsx`: a JS array is returned
unchanged; a string is brace-stripped, split on commas, trimmed, and
emptied of blank elements (`filter(Boolean)`); everything else yields the
empty array. -/
def parseArray : JSVal → List String
  | .arr xs => xs
  | .str s => (((stripBraces s).splitOn ",").map String.trim).filter fun x => !(x == "")
  | .other => []

/-- The spec scenario answer set: depression answers `[2,2,2,1,1,1,1,1,3]`
(subtotal 14, self-harm answer 3). -/
def sampleDep : List (Option ℤ) :=
  [some 2, some 2, some 2, some 1, some 1, some 1, some 1, some 1, some 3]

/-- All-zero anxiety answers for the spec scenario. -/
def sampleAnx : List (Option ℤ) :=
  [some 0, some 0, some 0, some 0, some 0, some 0, some 0]

/-- The assessment produced for the spec scenario with neutral sentiment
and an empty lexicon: overall `2335/54`, forced `critical` by the
self-harm flag. -/
def sampleAssessment : RiskAssessment :=
  ⟨14, 0, 50, false, true, 2335 / 54, .critical, "immediate (within hours)"⟩

/-- A sample roster entry with remaining capacity that accepts high-risk
patients. -/
def sampleTherapist : Therapist := ⟨7, ["trauma"], [], 10, 2, true, true, 0⟩

theorem seqOpt_of_mem_none {l : List (Option ℤ)} (h : none ∈ l) : seqOpt l = none := by
  induction l with
  | nil => cases h
  | cons a rest ih =>
    cases a with
    | none => rfl
    | some v =>
      have : none ∈ rest := by
        rcases List.mem_cons.mp h with h1 | h1
        · cases h1
        · exact h1
      simp [seqOpt, ih this]

theorem seqOpt_map_some (l : List ℤ) : seqOpt (l.map some) = some l := by
  induction l with
  | nil => rfl
  | cons a rest ih => simp [seqOpt, ih]

theorem list_sum_le_three_mul (l : List ℤ) (h : ∀ v ∈ l, v ≤ 3) :
    l.sum ≤ 3 * l.length := by
  induction l with
  | nil => simp
  | cons a rest ih =>
    have ha : a ≤ 3 := h a (List.mem_cons_self a rest)
    have hr : rest.sum ≤ 3 * rest.length := ih fun v hv => h v (List.mem_cons_of_mem a hv)
    simp only [List.sum_cons, List.length_cons]
    push_cast
    linarith

theorem list_sum_nonneg (l : List ℤ) (h : ∀ v ∈ l, 0 ≤ v) : 0 ≤ l.sum := by
  induction l with
  | nil => simp
  | cons a rest ih =>
    have ha : 0 ≤ a := h a (List.mem_cons_self a rest)
    have hr : 0 ≤ rest.sum := ih fun v hv => h v (List.mem_cons_of_mem a hv)
    simp only [List.sum_cons]
    linarith

theorem mem_insertRanked {x y : Therapist × ℚ} {l : List (Therapist × ℚ)}
    (h : y ∈ insertRanked x l) : y = x ∨ y ∈ l := by
  induction l with
  | nil => simpa [insertRanked] using h
  | cons b bs ih =>
    by_cases hc : rankedNoLater x b
    · simp only [insertRanked, if_pos hc] at h
      rcases List.mem_cons.mp h with h1 | h1
      · exact Or.inl h1
      · exact Or.inr h1
    · simp only [insertRanked, if_neg hc] at h
      rcases List.mem_cons.mp h with h1 | h1
      · exact Or.inr (List.mem_cons.mpr (Or.inl h1))
      · rcases ih h1 with h2 | h2
        · exact Or.inl h2
        · exact Or.inr (List.mem_cons.mpr (Or.inr h2))

theorem mem_sortRanked {y : Therapist × ℚ} {l : List (Therapist × ℚ)}
    (h : y ∈ sortRanked l) : y ∈ l := by
  induction l with
  | nil => simp [sortRanked] at h
  | cons b bs ih =>
    rcases mem_insertRanked h with h1 | h1
    · exact h1 ▸ List.mem_cons_self b bs
    · exact List.mem_cons_of_mem b (ih h1)

theorem ledgerStep_bounds (maxC led : ℕ → ℤ) (op : LedgerOp)
    (h : ∀ t, 0 ≤ led t ∧ led t ≤ maxC t) :
    ∀ t, 0 ≤ ledgerStep maxC led op t ∧ ledgerStep maxC led op t ≤ maxC t := by
  intro t
  cases op with
  | reserveOp u =>
    by_cases hc : maxC u ≤ led u
    · simp only [ledgerStep, reserve, if_pos hc]
      exact h t
    · simp only [ledgerStep, reserve, if_neg hc, updateLedger]
      by_cases ht : t = u
      · subst ht
        have := h t
        simp only [if_pos rfl]
        omega
      · simp only [if_neg ht]
        exact h t
  | releaseOp u =>
    by_cases hc : led u = 0
    · simp only [ledgerStep, release, if_pos hc]
      exact h t
    · simp only [ledgerStep, release, if_neg hc, updateLedger]
      by_cases ht : t = u
      · subst ht
        have := h t
        simp only [if_pos rfl]
        omega
      · simp only [if_neg ht]
        exact h t

theorem runLedger_bounds (maxC : ℕ → ℤ) (ops : List LedgerOp) :
    ∀ led, (∀ t, 0 ≤ led t ∧ led t ≤ maxC t) →
      ∀ t, 0 ≤ runLedger maxC led ops t ∧ runLedger maxC led ops t ≤ maxC t := by
  induction ops with
  | nil => intro led h t; exact h t
  | cons op ops ih =>
    intro led h t
    exact ih (ledgerStep maxC led op) (ledgerStep_bounds maxC led op h) t

/-- Claim C2: along any finite sequence of reserve/release calls from a state
satisfying `0 ≤ current ≤ max`, the caseload of every therapist stays within
`[0, max]` (the sequence being arbitrary, this bounds every intermediate
point); a reserve at capacity fails with `CapacityExceeded` and leaves the
counter unchanged, and a release at 0 fails with `InvariantViolation` and
leaves the counter unchanged. -/
theorem capacityLedger_safe (maxC led : ℕ → ℤ)
    (hinit : ∀ t, 0 ≤ led t ∧ led t ≤ maxC t) (ops : List LedgerOp) :
    (∀ t, 0 ≤ runLedger maxC led ops t ∧ runLedger maxC led ops t ≤ maxC t) ∧
    (∀ t, maxC t ≤ led t → reserve maxC led t = .error .capacityExceeded ∧
      ledgerStep maxC led (.reserveOp t) = led) ∧
    (∀ t, led t = 0 → release led t = .error .invariantViolation ∧
      ledgerStep maxC led (.releaseOp t) = led) := by
  refine ⟨runLedger_bounds maxC ops led hinit, ?_, ?_⟩
  · intro t ht
    have hr : reserve maxC led t = .error .capacityExceeded := by
      simp only [reserve, if_pos ht]
    exact ⟨hr, by simp only [ledgerStep, hr]⟩
  · intro t ht
    have hr : release led t = .error .invariantViolation := by
      simp only [release, if_pos ht]
    exact ⟨hr, by simp only [ledgerStep, hr]⟩

/-- Witness for C2: starting from zero caseloads with maximum 2, three
reserves of therapist 0 keep the caseload within the bounds. -/
theorem capacityLedger_safe_witness :
    0 ≤ runLedger (fun _ => 2) (fun _ => 0)
      [.reserveOp 0, .reserveOp 0, .reserveOp 0] 0 ∧
    runLedger (fun _ => 2) (fun _ => 0)
      [.reserveOp 0, .reserveOp 0, .reserveOp 0] 0 ≤ (fun _ => (2 : ℤ)) 0 :=
  (capacityLedger_safe (fun _ => 2) (fun _ => 0)
    (fun _ => by norm_num) [.reserveOp 0, .reserveOp 0, .reserveOp 0]).1 0

theorem activeCount_cons (a : Assignment) (s : List Assignment) (p : ℕ) :
    activeCount (a :: s) p =
      (if a.active && a.patient_id == p then 1 else 0) + activeCount s p := by
  simp only [activeCount, List.filter_cons]
  split
  · simp [List.length_cons, Nat.add_comm]
  · simp

theorem hasActive_false_count {s : List Assignment} {p : ℕ}
    (h : hasActiveAssignment s p = false) : activeCount s p = 0 := by
  induction s with
  | nil => rfl
  | cons a s ih =>
    simp only [hasActiveAssignment, List.any_cons, Bool.or_eq_false_iff] at h
    rw [activeCount_cons, if_neg (by simp [h.1]), ih h.2]

theorem activeCount_end_le (s : List Assignment) (p q : ℕ) :
    activeCount (end_assignment s p) q ≤ activeCount s q := by
  induction s with
  | nil => exact Nat.le_refl _
  | cons a s ih =>
    simp only [end_assignment, List.map_cons]
    rw [activeCount_cons, activeCount_cons]
    have hrec : activeCount (end_assignment s p) q ≤ activeCount s q := ih
    by_cases hp : a.patient_id == p
    · rw [if_pos hp]
      simp only [end_assignment] at hrec
      have : (if (Assignment.mk a.patient_id a.therapist_id false).active &&
          (Assignment.mk a.patient_id a.therapist_id false).patient_id == q
          then 1 else 0) = 0 := by simp
      rw [this]
      omega
    · rw [if_neg hp]
      simp only [end_assignment] at hrec
      omega

/-- Claim C6: in every state reachable through `create_assignment` and
`end_assignment`, each patient holds at most one active assignment, and
`create_assignment` fails for a patient who already holds an active
assignment, whatever therapist is targeted. -/
theorem assignments_at_most_one_active (s : List Assignment) (h : ReachableState s) :
    (∀ p, activeCount s p ≤ 1) ∧
    (∀ p t, hasActiveAssignment s p = true →
      create_assignment s p t = .error .invariantViolation) := by
  constructor
  · induction h with
    | init => intro p; simp [activeCount]
    | create s s' p t hs hc ih =>
      intro q
      unfold create_assignment at hc
      by_cases hha : hasActiveAssignment s p = true
      · rw [if_pos hha] at hc
        cases hc
      · rw [if_neg hha] at hc
        injection hc with hc'
        subst hc'
        rw [activeCount_cons]
        by_cases hq : q = p
        · subst hq
          have hz : activeCount s q = 0 :=
            hasActive_false_count (Bool.not_eq_true _ ▸ hha)
          simp [hz]
        · have : ((Assignment.mk p t true).active &&
              (Assignment.mk p t true).patient_id == q) = false := by
            simp
            omega
          rw [if_neg (by simp [this])]
          simpa using ih q
    | close s p hs ih =>
      intro q
      exact le_trans (activeCount_end_le s p q) (ih q)
  · intro p t hact
    unfold create_assignment
    rw [if_pos hact]

/-- Witness for C6: the empty store is reachable and satisfies the
invariant for patient 0. -/
theorem assignments_at_most_one_active_witness : activeCount [] 0 ≤ 1 :=
  (assignments_at_most_one_active [] ReachableState.init).1 0

/-- Claim C9: an alert can be acknowledged exactly when it is still open, an
acknowledge of an already acknowledged or resolved alert fails with
`InvalidTransition`, a resolve succeeds from any unresolved state (open or
acknowledged), and after acknowledge followed by resolve a second
acknowledge fails. -/
theorem alert_lifecycle (a : AlertState) :
    ((∃ a2, acknowledge_alert a = .ok a2) ↔ alertOpen a = true) ∧
    (a.acknowledged = true ∨ a.resolved = true →
      acknowledge_alert a = .error .invalidTransition) ∧
    (a.resolved = false → resolve_alert a = .ok ⟨a.acknowledged, true⟩) ∧
    (∀ a1 a2, acknowledge_alert a = .ok a1 → resolve_alert a1 = .ok a2 →
      acknowledge_alert a2 = .error .invalidTransition) := by
  rcases a with ⟨ack, res⟩
  refine ⟨?_, ?_, ?_, ?_⟩
  · cases ack <;> cases res <;> simp [acknowledge_alert, alertOpen]
  · intro h
    cases ack <;> cases res
    · exact absurd h (by simp)
    · simp [acknowledge_alert]
    · simp [acknowledge_alert]
    · simp [acknowledge_alert]
  · intro h
    cases res
    · simp [resolve_alert]
    · cases h
  · intro a1 a2 h1 h2
    cases ack <;> cases res <;> simp [acknowledge_alert] at h1
    subst h1
    simp [resolve_alert] at h2
    subst h2
    simp [acknowledge_alert]

/-- Witness for C9: from an open alert, acknowledge then resolve succeed
and the second acknowledge fails with `InvalidTransition`. -/
theorem alert_lifecycle_witness :
    acknowledge_alert ⟨true, true⟩ = .error .invalidTransition :=
  (alert_lifecycle ⟨false, false⟩).2.2.2 ⟨true, false⟩ ⟨true, true⟩
    (by simp [acknowledge_alert]) (by simp [resolve_alert])

/-- Claim C4: on a complete, in-range answer set (9 depression answers, 7 anxiety
answers, each in `[0, 3]`), the ScoreCalculator returns exactly the two
integer sums, which lie in `[0, 27]` and `[0, 21]` respectively. -/
theorem scoreCalculator_exact_sums (dep anx : List ℤ)
    (hdl : dep.length = 9) (hal : anx.length = 7)
    (hdr : ∀ v ∈ dep, 0 ≤ v ∧ v ≤ 3) (har : ∀ v ∈ anx, 0 ≤ v ∧ v ≤ 3) :
    scoreAnswers (dep.map some) (anx.map some) =
      .ok ⟨dep.sum, anx.sum, decide (1 ≤ dep.getD 8 0)⟩ ∧
    0 ≤ dep.sum ∧ dep.sum ≤ 27 ∧ 0 ≤ anx.sum ∧ anx.sum ≤ 21 := by
  have hall1 : (dep.all fun v => decide (0 ≤ v ∧ v ≤ 3)) = true := by
    rw [List.all_eq_true]
    intro v hv
    exact decide_eq_true (hdr v hv)
  have hall2 : (anx.all fun v => decide (0 ≤ v ∧ v ≤ 3)) = true := by
    rw [List.all_eq_true]
    intro v hv
    exact decide_eq_true (har v hv)
  refine ⟨?_, ?_, ?_, ?_, ?_⟩
  · unfold scoreAnswers
    rw [if_pos (by simp [hdl, hal])]
    rw [seqOpt_map_some, seqOpt_map_some]
    simp only [List.all_eq_true, decide_eq_true_eq] at hall1 hall2
    simp [hall1, hall2]
    exact ⟨hdr, har⟩
  · exact list_sum_nonneg dep fun v hv => (hdr v hv).1
  · have := list_sum_le_three_mul dep fun v hv => (hdr v hv).2
    rw [hdl] at this
    omega
  · exact list_sum_nonneg anx fun v hv => (har v hv).1
  · have := list_sum_le_three_mul anx fun v hv => (har v hv).2
    rw [hal] at this
    omega

/-- Witness for C4: the spec scenario `[2,2,2,1,1,1,1,1,3]` with all-zero
anxiety answers scores subtotal 14 and 0, flagging self-harm. -/
theorem scoreCalculator_exact_sums_witness :
    scoreAnswers ([2, 2, 2, 1, 1, 1, 1, 1, 3].map some)
        ([0, 0, 0, 0, 0, 0, 0].map some) =
      .ok ⟨14, 0, true⟩ ∧ ([2, 2, 2, 1, 1, 1, 1, 1, 3] : List ℤ).sum ≤ 27 := by
  have h := scoreCalculator_exact_sums [2, 2, 2, 1, 1, 1, 1, 1, 3]
    [0, 0, 0, 0, 0, 0, 0] (by decide) (by decide) (by decide) (by decide)
  exact ⟨h.1, h.2.2.1⟩

/-- Claim C5: if any of the 9 depression or 7 anxiety answers is absent, the
ScoreCalculator fails with `ValidationError` and produces no result (so no
partial subtotal exists and absence is never treated as zero). -/
theorem scoreCalculator_rejects_missing (dep anx : List (Option ℤ))
    (hdl : dep.length = 9) (hal : anx.length = 7)
    (h : none ∈ dep ∨ none ∈ anx) :
    scoreAnswers dep anx = .error .validationError := by
  unfold scoreAnswers
  rw [if_pos ⟨hdl, hal⟩]
  rcases h with h | h
  · rw [seqOpt_of_mem_none h]
  · cases hd : seqOpt dep with
    | none => rfl
    | some d => rw [seqOpt_of_mem_none h]

/-- Witness for C5: one missing depression answer is rejected. -/
theorem scoreCalculator_rejects_missing_witness :
    scoreAnswers [some 2, some 2, some 2, some 1, some 1, some 1, some 1,
        some 1, none] ([0, 0, 0, 0, 0, 0, 0].map (some : ℤ → Option ℤ)) =
      .error .validationError :=
  scoreCalculator_rejects_missing _ _ (by decide) (by decide)
    (Or.inl (by decide))

theorem all_filter_self (p : α → Bool) (l : List α) : (l.filter p).all p = true := by
  induction l with
  | nil => rfl
  | cons a rest ih =>
    rw [List.filter_cons]
    split
    · simp only [List.all_cons, ih, Bool.and_true]
      assumption
    · exact ih

/-- Claim C10: the dashboard boundary normalizer is total and always yields an
array: a JS array passes through unchanged, any non-array non-string input
yields the empty array, a parsed string contains no empty elements, and
`parseArray` is idempotent. -/
theorem parseArray_normalizes :
    (∀ xs, parseArray (.arr xs) = xs) ∧
    (parseArray .other = []) ∧
    (∀ s, (parseArray (.str s)).all (fun x => !(x == "")) = true) ∧
    (∀ v, parseArray (.arr (parseArray v)) = parseArray v) :=
  ⟨fun _ => rfl, rfl, fun _ => all_filter_self _ _, fun _ => rfl⟩

theorem classifyRisk_cases (ov : ℚ) (sh : Bool) :
    (classifyRisk ov sh = .critical ↔ (80 ≤ ov ∨ sh = true)) ∧
    (classifyRisk ov sh = .high ↔ (60 ≤ ov ∧ ov < 80 ∧ sh = false)) ∧
    (classifyRisk ov sh = .moderate ↔ (40 ≤ ov ∧ ov < 60 ∧ sh = false)) ∧
    (classifyRisk ov sh = .low ↔ (ov < 40 ∧ sh = false)) := by
  cases sh
  all_goals {
    unfold classifyRisk
    split_ifs with h1 h2 h3 <;>
      refine ⟨?_, ?_, ?_, ?_⟩ <;>
      constructor <;>
      simp_all <;>
      intros <;>
      first
        | rfl
        | linarith
  }

/-- Claim C1: whenever `score_intake` returns an assessment, its risk level is
exactly the threshold classification of the blended overall score —
`critical` iff overall ≥ 80 or the self-harm flag is set, `high` iff
60 ≤ overall < 80 without the flag, `moderate` iff 40 ≤ overall < 60
without the flag, `low` otherwise — and a set self-harm flag forces
`critical` for every combination of the remaining inputs. -/
theorem score_intake_risk_classification (dep anx : List (Option ℤ))
    (text : String) (sentiment : Option ℚ) (lexicon : List String)
    (ra : RiskAssessment)
    (h : score_intake dep anx text sentiment lexicon = .ok ra) :
    (ra.risk_level = .critical ↔
      (80 ≤ ra.overall_risk_score ∨ ra.self_harm_risk = true)) ∧
    (ra.risk_level = .high ↔ (60 ≤ ra.overall_risk_score ∧
      ra.overall_risk_score < 80 ∧ ra.self_harm_risk = false)) ∧
    (ra.risk_level = .moderate ↔ (40 ≤ ra.overall_risk_score ∧
      ra.overall_risk_score < 60 ∧ ra.self_harm_risk = false)) ∧
    (ra.risk_level = .low ↔
      (ra.overall_risk_score < 40 ∧ ra.self_harm_risk = false)) ∧
    (ra.self_harm_risk = true → ra.risk_level = .critical) := by
  unfold score_intake at h
  cases hsc : scoreAnswers dep anx with
  | error e => rw [hsc] at h; cases h
  | ok sc =>
    rw [hsc] at h
    cases hcs : checkSentiment sentiment with
    | error e => rw [hcs] at h; cases h
    | ok sentC =>
      rw [hcs] at h
      injection h with h'
      subst h'
      have hc := classifyRisk_cases
        (mkAssessment sc sentC (detectCrisis lexicon text)).overall_risk_score
        (mkAssessment sc sentC (detectCrisis lexicon text)).self_harm_risk
      exact ⟨hc.1, hc.2.1, hc.2.2.1, hc.2.2.2,
        fun hsh => hc.1.mpr (Or.inr hsh)⟩

/-- Claim C7: the overall risk score is monotone in its inputs — raising either
subtotal or making the sentiment more negative (crisis flags unchanged)
never decreases the blended, clamped overall score. -/
theorem riskClassifier_monotone (d d' a a' : ℤ) (s s' : ℚ) (kw sh : Bool)
    (hd : d ≤ d') (ha : a ≤ a') (hs : s' ≤ s) :
    overallFromInputs d a s kw sh ≤ overallFromInputs d' a' s' kw sh := by
  unfold overallFromInputs blendOverall clampQ normalizeSub sentimentComponent
  have hdq : (d : ℚ) ≤ (d' : ℚ) := by exact_mod_cast hd
  have haq : (a : ℚ) ≤ (a' : ℚ) := by exact_mod_cast ha
  refine max_le_max le_rfl (min_le_min le_rfl ?_)
  linarith

/-- Witness for C7: raising the depression subtotal from 0 to 27 does not
decrease the overall score. -/
theorem riskClassifier_monotone_witness :
    overallFromInputs 0 0 0 false false ≤ overallFromInputs 27 0 0 false false :=
  riskClassifier_monotone 0 27 0 0 0 0 false false (by norm_num) le_rfl le_rfl

/-- Claim C8: the dropout probability is the clamp of the linear-weighted value
into `[0, 100]`, hence always lies in that interval, and an intervention is
recommended exactly when the probability is at least 70. -/
theorem predict_dropout_bounds (w : DropoutWeights) (f : DropoutFeatures)
    (log1pDays : ℚ) :
    (0 ≤ (predict_dropout w f log1pDays).dropout_probability ∧
      (predict_dropout w f log1pDays).dropout_probability ≤ 100) ∧
    ((predict_dropout w f log1pDays).intervention_recommended = true ↔
      70 ≤ (predict_dropout w f log1pDays).dropout_probability) := by
  unfold predict_dropout clampQ
  refine ⟨⟨le_max_left _ _, max_le (by norm_num) (min_le_left _ _)⟩, ?_⟩
  exact decide_eq_true_iff

/-- Claim C3: every candidate returned by `rank_therapists` has strictly positive
remaining capacity, and for a critical-risk patient every returned
candidate accepts high-risk cases. -/
theorem rank_therapists_safe (risk : RiskLevel) (needs : List String)
    (prefLang : String) (roster : List Therapist) (topN : ℕ)
    (t : Therapist) (s : ℚ)
    (hmem : (t, s) ∈ rank_therapists risk needs prefLang roster topN) :
    0 < capacity_remaining t ∧
    (risk = .critical → t.accepts_high_risk = true) := by
  unfold rank_therapists at hmem
  have h1 := mem_sortRanked (List.mem_of_mem_take hmem)
  rcases List.mem_map.mp h1 with ⟨u, hu, huv⟩
  injection huv with h2 h3
  subst h2
  have h5 := (List.mem_filter.mp hu).2
  simp only [eligibleFor, Bool.and_eq_true, Bool.not_eq_true',
    Bool.and_eq_false_iff, decide_eq_true_iff, decide_eq_false_iff_not] at h5
  refine ⟨h5.1.2, ?_⟩
  intro hcrit
  rcases h5.2 with h6 | h6
  · exact absurd hcrit h6
  · simpa using h6

/-- Witness for C1: the spec scenario answers with neutral sentiment and an
empty lexicon produce an assessment whose self-harm flag forces risk level
`critical`. -/
theorem score_intake_risk_classification_witness :
    score_intake sampleDep sampleAnx "" (some 0) [] = .ok sampleAssessment ∧
    sampleAssessment.risk_level = .critical := by
  have h1 : scoreAnswers sampleDep sampleAnx = .ok ⟨14, 0, true⟩ := by rfl
  have h2 : checkSentiment (some 0) = .ok 50 := by
    simp only [checkSentiment]
    norm_num [sentimentComponent]
  have h : score_intake sampleDep sampleAnx "" (some 0) [] = .ok sampleAssessment := by
    unfold score_intake
    rw [h1, h2]
    have hcrisis : detectCrisis [] "" = false := rfl
    rw [hcrisis]
    unfold mkAssessment
    have hov : blendOverall (normalizeSub (14 : ℤ) 27) (normalizeSub (0 : ℤ) 21)
        50 (crisisComponent false true) = 2335 / 54 := by
      unfold blendOverall clampQ normalizeSub crisisComponent
      norm_num [min_def, max_def]
    simp only [hov]
    have hcl : classifyRisk (2335 / 54) true = .critical := by
      unfold classifyRisk
      rw [if_pos (Or.inr rfl)]
    simp only [hcl]
    rfl
  exact ⟨h, (score_intake_risk_classification sampleDep sampleAnx "" (some 0) []
    sampleAssessment h).2.2.2.2 rfl⟩

/-- Witness for C3: the sample therapist is returned for a critical-risk
patient, and indeed has remaining capacity and accepts high-risk cases. -/
theorem rank_therapists_safe_witness :
    ((sampleTherapist, (15 : ℚ)) ∈ rank_therapists .critical [] "" [sampleTherapist] 3) ∧
    0 < capacity_remaining sampleTherapist := by
  have hsc : matchScore .critical [] "" sampleTherapist = 15 := by
    norm_num [matchScore, specialtyPoints, languagePoints, riskPoints, sampleTherapist]
  have hlist : rank_therapists .critical [] "" [sampleTherapist] 3 =
      [(sampleTherapist, matchScore .critical [] "" sampleTherapist)] := rfl
  have hmem : (sampleTherapist, (15 : ℚ)) ∈
      rank_therapists .critical [] "" [sampleTherapist] 3 := by
    rw [hlist, hsc]
    exact List.mem_singleton.mpr rfl
  exact ⟨hmem, (rank_therapists_safe .critical [] "" [sampleTherapist] 3
    sampleTherapist 15 hmem).1⟩

end MindCare
